import Mathlib

/-!
Verification of the BP-AFRICA back-office client against its specification.

The development shallowly embeds the client-side data layer:
* `src/hooks/use-categorized-transactions.ts` — the categorized-transactions
  hook (per-category cached state, response-shape normalization);
* the cascading transaction-filter hook (partner bank → merchant →
  sub-merchant option lists);
* the API client's 401 response interceptor.

JSON payloads are modelled by the inductive `JsValue`; JavaScript property
access yields `Option JsValue` (with `none` standing for `undefined`), and
JavaScript truthiness / the `||` operator are embedded explicitly.
-/

/-- A JSON/JavaScript value as seen by the client after parsing. -/
inductive JsValue where
  | null
  | bool (b : Bool)
  | num (n : Int)
  | str (s : String)
  | arr (elems : List JsValue)
  | obj (fields : List (String × JsValue))

namespace JsValue

/-- JavaScript truthiness of a defined value (`NaN` is not modelled). -/
def truthy : JsValue → Bool
  | .null => false
  | .bool b => b
  | .num n => n != 0
  | .str s => s != ""
  | .arr _ => true
  | .obj _ => true

/-- Property access `v[k]`; `none` models `undefined` (also for non-objects). -/
def getProp : JsValue → String → Option JsValue
  | .obj fields, k => (fields.find? (fun p => p.1 == k)).map Prod.snd
  | _, _ => none

/-- `Array.isArray(v)`. -/
def isArray : JsValue → Bool
  | .arr _ => true
  | _ => false

/-- The element list of an array value, `[]` otherwise. -/
def arrayElems : JsValue → List JsValue
  | .arr elems => elems
  | _ => []

/-- `Object.values(v)` for the object case (other inputs contribute no arrays
in the code path where it is used). -/
def objValues : JsValue → List JsValue
  | .obj fields => fields.map Prod.snd
  | _ => []

end JsValue

/-- Truthiness of a possibly-undefined value: `undefined` is falsy. -/
def optTruthy : Option JsValue → Bool
  | some v => v.truthy
  | none => false

/-- JavaScript `a || d` where `a` may be `undefined` and `d` is defined. -/
def jsOr (a : Option JsValue) (d : JsValue) : JsValue :=
  match a with
  | some v => if v.truthy then v else d
  | none => d

/-- The condition `v.k && Array.isArray(v.k)` used by the shape cases. -/
def hasArrayProp (v : JsValue) (k : String) : Bool :=
  optTruthy (v.getProp k) && (match v.getProp k with
    | some w => w.isArray
    | none => false)

/-! ## Categorized-transactions hook (`use-categorized-transactions.ts`) -/

/-- The three transaction categories of the hook. -/
inductive TransactionCategory where
  | collection
  | reversal
  | payout
deriving DecidableEq, Repr

/-- `CategorizedTransactionType` (`money_in` / `reversal` / `money_out`). -/
inductive CategorizedTransactionType where
  | money_in
  | reversal
  | money_out
deriving DecidableEq, Repr

/-- The `TRANSACTION_CATEGORIES` mapping from category to transaction type. -/
def TRANSACTION_CATEGORIES : TransactionCategory → CategorizedTransactionType
  | .collection => .money_in
  | .reversal => .reversal
  | .payout => .money_out

/-- Per-category cached state (`UseCategorizedTransactionsState`): the stored
`meta` value is the JavaScript object kept in the state slot (`none` = null). -/
structure CatState where
  data : List JsValue
  meta : Option JsValue
  loading : Bool
  error : Option String

/-- The `initialState` constant of the hook. -/
def initialState : CatState :=
  { data := [], meta := none, loading := false, error := none }

/-- The hook's full state: one independent record per category plus the
current-category pointer. -/
structure HookState where
  collection : CatState
  reversal : CatState
  payout : CatState
  currentCategory : TransactionCategory

/-- Hook state right after mount with the default initial category. -/
def initialHookState : HookState :=
  { collection := initialState, reversal := initialState,
    payout := initialState, currentCategory := .collection }

/-- `getCategorySetter category` applied to an update function: writes only
the selected category's state slot. -/
def getCategorySetter (category : TransactionCategory)
    (f : CatState → CatState) (s : HookState) : HookState :=
  match category with
  | .collection => { s with collection := f s.collection }
  | .reversal => { s with reversal := f s.reversal }
  | .payout => { s with payout := f s.payout }

/-- `getCategoryState category`: reads the selected category's state slot. -/
def getCategoryState (category : TransactionCategory) (s : HookState) : CatState :=
  match category with
  | .collection => s.collection
  | .reversal => s.reversal
  | .payout => s.payout

/-- A value thrown by the underlying service call: either a JavaScript
`Error` (carrying `message`) or some non-`Error` value. -/
inductive ThrownValue where
  | jsError (message : String)
  | nonError
deriving DecidableEq, Repr

/-- `error instanceof Error ? error.message : 'An unknown error occurred'`. -/
def errorMessageOf : ThrownValue → String
  | .jsError m => m
  | .nonError => "An unknown error occurred"

/-- Outcome of the awaited `getCategorizedTransactions` call. -/
inductive FetchOutcome where
  | resolved (response : JsValue)
  | thrown (e : ThrownValue)

/-- Result of the shape-sniffing block: the local `transactions` and `meta`
variables of `fetchTransactions` (`metaVar = none` models `meta` still being
`null`/`undefined` when no case assigned a defined value). -/
structure ExtractResult where
  transactions : List JsValue
  metaVar : Option JsValue

/-- The five-way shape-sniffing block of `fetchTransactions`, translated
case by case from the source (cases 1-5). -/
def extractFromData (rd : JsValue) : ExtractResult :=
  -- Case 1: responseData.data is an array → nested data + pagination meta
  if hasArrayProp rd "data" then
    { transactions := (jsOr (rd.getProp "data") .null).arrayElems,
      metaVar := some (.obj
        [("page", jsOr (rd.getProp "currentPage") (.num 1)),
         ("perPage", jsOr (rd.getProp "perPage") (.num 10)),
         ("total", jsOr (rd.getProp "total") (.num 0)),
         ("totalPages", jsOr (rd.getProp "lastPage") (.num 1))]) }
  -- Case 2: responseData.items is an array
  else if hasArrayProp rd "items" then
    { transactions := (jsOr (rd.getProp "items") .null).arrayElems,
      metaVar := rd.getProp "meta" }
  -- Case 3: responseData is itself an array
  else if rd.isArray then
    { transactions := rd.arrayElems, metaVar := none }
  -- Case 4: responseData.transactions is an array
  else if hasArrayProp rd "transactions" then
    { transactions := (jsOr (rd.getProp "transactions") .null).arrayElems,
      metaVar := rd.getProp "meta" }
  -- Case 5: fallback — first array among Object.values(responseData)
  else
    match (rd.objValues.filter JsValue.isArray).head? with
    | some firstArr => { transactions := firstArr.arrayElems, metaVar := none }
    | none => { transactions := [], metaVar := none }

/-- `Math.ceil(n / 10)` on a non-negative count. -/
def ceilDiv10 (n : Nat) : Nat := (n + 9) / 10

/-- The default meta object `{page: 1, perPage: 10, total: transactions.length,
totalPages: Math.ceil(transactions.length / 10)}`. -/
def defaultMeta (count : Nat) : JsValue :=
  .obj [("page", .num 1), ("perPage", .num 10), ("total", .num count),
        ("totalPages", .num (ceilDiv10 count))]

/-- `isSuccess = response.success || response.status === "success"`. -/
def isSuccessEnvelope (response : JsValue) : Bool :=
  optTruthy (response.getProp "success") ||
    (match response.getProp "status" with
     | some (.str s) => s == "success"
     | _ => false)

/-- The synchronous prefix of `fetchTransactions`:
`setState(prev => ({...prev, loading: true, error: null}))`. -/
def fetchStart (cs : CatState) : CatState :=
  { cs with loading := true, error := none }

/-- The continuation of `fetchTransactions` once the awaited call settles:
success-path normalization, failure-envelope path, and the catch block. -/
def fetchComplete (outcome : FetchOutcome) (cs : CatState) : CatState :=
  match outcome with
  | .resolved response =>
    let responseData := response.getProp "data"
    if isSuccessEnvelope response && optTruthy responseData then
      let rd := jsOr responseData .null
      let r := extractFromData rd
      { data := r.transactions,
        meta := some (jsOr r.metaVar (defaultMeta r.transactions.length)),
        loading := false,
        error := none }
    else
      { cs with loading := false, error := some "Failed to fetch transactions" }
  | .thrown e =>
    { cs with loading := false, error := some (errorMessageOf e) }

/-- Query parameters accepted by `fetchTransactions` (`none` = property not
present on the params object). -/
structure QueryParams where
  page : Option Int
  perPage : Option Int
deriving DecidableEq, Repr

/-- A call issued to `transactionService.getCategorizedTransactions`: the
params object is `{page: params?.page || 1, perPage: params?.perPage || 10,
...params}`, so a present property wins over the computed default. -/
structure ServiceCall where
  transactionType : CategorizedTransactionType
  page : Option Int
  perPage : Option Int
deriving DecidableEq, Repr

/-- The params object actually handed to the service for a given category:
the trailing `...params` spread overrides the computed defaults with the raw
property whenever it is present, so a field ends up `params?.field` when
present and the default (`1` / `10`) otherwise. -/
def mkServiceCall (category : TransactionCategory) (params : Option QueryParams) :
    ServiceCall :=
  { transactionType := TRANSACTION_CATEGORIES category
    page := some ((params.bind QueryParams.page).getD 1)
    perPage := some ((params.bind QueryParams.perPage).getD 10) }

/-- The synchronous phase of `fetchTransactions category params`: set the
loading flag and issue the service call. -/
def fetchIssue (category : TransactionCategory) (params : Option QueryParams)
    (s : HookState) : HookState × ServiceCall :=
  (getCategorySetter category fetchStart s, mkServiceCall category params)

/-- Applying the settled outcome of the awaited call to the hook state. -/
def fetchResolve (category : TransactionCategory) (outcome : FetchOutcome)
    (s : HookState) : HookState :=
  getCategorySetter category (fetchComplete outcome) s

/-- A whole `fetchTransactions category params` run whose awaited call ends
with `outcome`: the resulting hook state and the single service call issued. -/
def fetchTransactions (category : TransactionCategory) (params : Option QueryParams)
    (outcome : FetchOutcome) (s : HookState) : HookState × ServiceCall :=
  let issued := fetchIssue category params s
  (fetchResolve category outcome issued.1, issued.2)

/-- A `setCurrentCategory c` step with React effect semantics: when `c`
differs from the current category, the state update re-runs the hook's
`useEffect([currentCategory, fetchTransactions])`, which calls
`fetchTransactions(currentCategory)` with no params; when `c` equals the
current category, React bails out and the effect does not re-run. The second
component lists the service calls the step issues. -/
def setCurrentCategoryStep (c : TransactionCategory) (s : HookState) :
    HookState × List ServiceCall :=
  if c = s.currentCategory then (s, [])
  else
    let s1 := { s with currentCategory := c }
    let issued := fetchIssue c none s1
    (issued.1, [issued.2])

/-! ## Cascading transaction-filter hook -/

/-- JavaScript `a || b` on possibly-undefined strings (empty string is falsy,
and the right operand may itself be falsy, so chains keep folding). -/
def jsOrStr (a b : Option String) : Option String :=
  match a with
  | some s => if s != "" then some s else b
  | none => b

/-- A `FilterOption` `{id, name, value}`; fields are `Option String` because
the defensive field-fallback chains can leave them `undefined`. -/
structure FilterOption where
  id : Option String
  name : Option String
  value : Option String
deriving DecidableEq, Repr

/-- `createInitialOption()`: the synthetic "All" sentinel. -/
def createInitialOption : FilterOption :=
  { id := some "all", name := some "-- All --", value := some "all" }

/-- A partner-bank record as the conversion code probes it. -/
structure PartnerBank where
  id : Option String
  uuid : Option String
  underscoreId : Option String
  bankId : Option String
  name : Option String
  bankName : Option String
  title : Option String
deriving DecidableEq, Repr

/-- A merchant record as the conversion code probes it. -/
structure Merchant where
  id : Option String
  uuid : Option String
  underscoreId : Option String
  merchantId : Option String
  name : Option String
  businessName : Option String
  merchantName : Option String
  title : Option String
deriving DecidableEq, Repr

/-- A sub-merchant record as the conversion code probes it. -/
structure SubMerchant where
  id : Option String
  businessName : Option String
  name : Option String
deriving DecidableEq, Repr

/-- `convertPartnerBanksToOptions`: prepends the "All" sentinel and resolves
id/name through the `||` fallback chains of the source. -/
def convertPartnerBanksToOptions (partnerBanks : List PartnerBank) : List FilterOption :=
  let allOption : FilterOption := { id := some "all", name := some "-- All --", value := some "all" }
  let bankOptions := partnerBanks.map (fun bank =>
    let bankId0 := jsOrStr (jsOrStr (jsOrStr (jsOrStr bank.id bank.uuid) bank.underscoreId)
      bank.bankId) bank.name
    let bankName0 := jsOrStr (jsOrStr (jsOrStr bank.name bank.bankName) bank.title) bankId0
    { id := bankId0, name := bankName0, value := bankId0 })
  allOption :: bankOptions

/-- `convertMerchantsToOptions`: same pattern for merchants. -/
def convertMerchantsToOptions (merchants : List Merchant) : List FilterOption :=
  let allOption : FilterOption := { id := some "all", name := some "-- All --", value := some "all" }
  let merchantOptions := merchants.map (fun merchant =>
    let merchantId0 := jsOrStr (jsOrStr (jsOrStr (jsOrStr merchant.id merchant.uuid)
      merchant.underscoreId) merchant.merchantId) merchant.name
    let merchantName0 := jsOrStr (jsOrStr (jsOrStr (jsOrStr merchant.businessName merchant.name)
      merchant.merchantName) merchant.title) merchantId0
    { id := merchantId0, name := merchantName0, value := merchantId0 })
  allOption :: merchantOptions

/-- `convertSubMerchantsToOptions`: id taken directly, name via
`businessName || name`. -/
def convertSubMerchantsToOptions (subMerchants : List SubMerchant) : List FilterOption :=
  let allOption : FilterOption := { id := some "all", name := some "-- All --", value := some "all" }
  let subMerchantOptions := subMerchants.map (fun subMerchant =>
    { id := subMerchant.id,
      name := jsOrStr subMerchant.businessName subMerchant.name,
      value := subMerchant.id })
  allOption :: subMerchantOptions

/-- `EnhancedTransactionFilters`: the mutable filter-value state. -/
structure EnhancedTransactionFilters where
  partnerBankId : String
  merchantId : String
  subMerchantId : String
  startDate : String
  endDate : String
  transactionType : String
  searchTerm : String
  perPage : String
deriving DecidableEq, Repr

/-- The `initialFilters` constant. -/
def initialFilters : EnhancedTransactionFilters :=
  { partnerBankId := "all", merchantId := "all", subMerchantId := "all",
    startDate := "", endDate := "", transactionType := "all",
    searchTerm := "", perPage := "10" }

/-- Per-list loading flags of `TransactionFilterData`. -/
structure FilterLoading where
  partnerBanks : Bool
  merchants : Bool
  subMerchants : Bool
deriving DecidableEq, Repr

/-- Per-list error strings of `TransactionFilterData`. -/
structure FilterError where
  partnerBanks : Option String
  merchants : Option String
  subMerchants : Option String
deriving DecidableEq, Repr

/-- `TransactionFilterData`: the three option lists with loading/error. -/
structure TransactionFilterData where
  partnerBanks : List FilterOption
  merchants : List FilterOption
  subMerchants : List FilterOption
  loading : FilterLoading
  error : FilterError
deriving DecidableEq, Repr

/-- The `initialFilterData` constant. -/
def initialFilterData : TransactionFilterData :=
  { partnerBanks := [createInitialOption],
    merchants := [createInitialOption],
    subMerchants := [createInitialOption],
    loading := { partnerBanks := false, merchants := false, subMerchants := false },
    error := { partnerBanks := none, merchants := none, subMerchants := none } }

/-- Combined state of `useTransactionFilters`. -/
structure FilterHookState where
  filters : EnhancedTransactionFilters
  filterData : TransactionFilterData
deriving DecidableEq, Repr

/-- Filter-hook state on mount. -/
def initialFilterHookState : FilterHookState :=
  { filters := initialFilters, filterData := initialFilterData }

/-- A call issued by the filter hook to a backing service. -/
inductive FilterServiceCall where
  | getPartnerBanks
  | getMerchantsByPartnerBank (partnerBankId : String)
  | getSubMerchantsByMerchant (merchantId : String)
deriving DecidableEq, Repr

/-- Synchronous phase of `fetchPartnerBanks` (run by the mount effect). -/
def fetchPartnerBanksStart (s : FilterHookState) : FilterHookState × List FilterServiceCall :=
  ({ s with filterData.loading.partnerBanks := true,
            filterData.error.partnerBanks := none },
   [.getPartnerBanks])

/-- `fetchPartnerBanks` success continuation. -/
def fetchPartnerBanksSucceed (partnerBanks : List PartnerBank) (s : FilterHookState) :
    FilterHookState :=
  { s with filterData.partnerBanks := convertPartnerBanksToOptions partnerBanks,
           filterData.loading.partnerBanks := false }

/-- `fetchPartnerBanks` catch block: the partner-bank list is left as it was. -/
def fetchPartnerBanksFail (e : ThrownValue) (s : FilterHookState) : FilterHookState :=
  let errorMessage := match e with
    | .jsError m => m
    | .nonError => "Failed to fetch partner banks"
  { s with filterData.loading.partnerBanks := false,
           filterData.error.partnerBanks := some errorMessage }

/-- Synchronous phase of `fetchMerchantsByPartnerBank id`: immediate reset
without a call when `id = "all"`, otherwise loading flag plus one call. -/
def fetchMerchantsByPartnerBankStart (partnerBankId : String) (s : FilterHookState) :
    FilterHookState × List FilterServiceCall :=
  if partnerBankId = "all" then
    ({ s with filterData.merchants := [createInitialOption] }, [])
  else
    ({ s with filterData.loading.merchants := true,
              filterData.error.merchants := none },
     [.getMerchantsByPartnerBank partnerBankId])

/-- `fetchMerchantsByPartnerBank` success continuation. -/
def fetchMerchantsSucceed (merchants : List Merchant) (s : FilterHookState) :
    FilterHookState :=
  { s with filterData.merchants := convertMerchantsToOptions merchants,
           filterData.loading.merchants := false }

/-- `fetchMerchantsByPartnerBank` catch block: reset to the single sentinel. -/
def fetchMerchantsFail (e : ThrownValue) (s : FilterHookState) : FilterHookState :=
  let errorMessage := match e with
    | .jsError m => m
    | .nonError => "Failed to fetch merchants"
  { s with filterData.merchants := [createInitialOption],
           filterData.loading.merchants := false,
           filterData.error.merchants := some errorMessage }

/-- Synchronous phase of `fetchSubMerchantsByMerchant id`. -/
def fetchSubMerchantsByMerchantStart (merchantId : String) (s : FilterHookState) :
    FilterHookState × List FilterServiceCall :=
  if merchantId = "all" then
    ({ s with filterData.subMerchants := [createInitialOption] }, [])
  else
    ({ s with filterData.loading.subMerchants := true,
              filterData.error.subMerchants := none },
     [.getSubMerchantsByMerchant merchantId])

/-- `fetchSubMerchantsByMerchant` success continuation. -/
def fetchSubMerchantsSucceed (subMerchants : List SubMerchant) (s : FilterHookState) :
    FilterHookState :=
  { s with filterData.subMerchants := convertSubMerchantsToOptions subMerchants,
           filterData.loading.subMerchants := false }

/-- `fetchSubMerchantsByMerchant` catch block: reset to the single sentinel. -/
def fetchSubMerchantsFail (e : ThrownValue) (s : FilterHookState) : FilterHookState :=
  let errorMessage := match e with
    | .jsError m => m
    | .nonError => "Failed to fetch sub-merchants"
  { s with filterData.subMerchants := [createInitialOption],
           filterData.loading.subMerchants := false,
           filterData.error.subMerchants := some errorMessage }

/-- The `setPartnerBank(id)` action: cascade resets plus the dependent
merchant-options fetch. -/
def setPartnerBank (id : String) (s : FilterHookState) :
    FilterHookState × List FilterServiceCall :=
  let s1 := { s with filters.partnerBankId := id,
                     filters.merchantId := "all",
                     filters.subMerchantId := "all" }
  let s2 := { s1 with filterData.merchants := [createInitialOption],
                      filterData.subMerchants := [createInitialOption] }
  fetchMerchantsByPartnerBankStart id s2

/-- The `setMerchant(id)` action. -/
def setMerchant (id : String) (s : FilterHookState) :
    FilterHookState × List FilterServiceCall :=
  let s1 := { s with filters.merchantId := id, filters.subMerchantId := "all" }
  let s2 := { s1 with filterData.subMerchants := [createInitialOption] }
  fetchSubMerchantsByMerchantStart id s2

/-- The `setSubMerchant(id)` leaf action. -/
def setSubMerchant (id : String) (s : FilterHookState) : FilterHookState :=
  { s with filters.subMerchantId := id }

/-- The `setDateRange(start, end)` leaf action. -/
def setDateRange (startDate endDate : String) (s : FilterHookState) : FilterHookState :=
  { s with filters.startDate := startDate, filters.endDate := endDate }

/-- The `setTransactionType(type)` leaf action. -/
def setTransactionType (t : String) (s : FilterHookState) : FilterHookState :=
  { s with filters.transactionType := t }

/-- The `setSearchTerm(term)` leaf action. -/
def setSearchTerm (term : String) (s : FilterHookState) : FilterHookState :=
  { s with filters.searchTerm := term }

/-- The `setPerPage(perPage)` leaf action. -/
def setPerPage (perPage : String) (s : FilterHookState) : FilterHookState :=
  { s with filters.perPage := perPage }

/-- The `clearFilters()` action: reset all filter values and the two
dependent option lists; no service call is issued. -/
def clearFilters (s : FilterHookState) : FilterHookState × List FilterServiceCall :=
  ({ s with filters := initialFilters,
            filterData.merchants := [createInitialOption],
            filterData.subMerchants := [createInitialOption] },
   [])

/-- Every event that can hit the filter-hook state: the caller-driven actions
plus the asynchronous completions of the three option-list fetches. -/
inductive FilterEvent where
  | partnerBanksStart
  | partnerBanksSucceed (banks : List PartnerBank)
  | partnerBanksFail (e : ThrownValue)
  | merchantsSucceed (merchants : List Merchant)
  | merchantsFail (e : ThrownValue)
  | subMerchantsSucceed (subMerchants : List SubMerchant)
  | subMerchantsFail (e : ThrownValue)
  | setPartnerBankAct (id : String)
  | setMerchantAct (id : String)
  | setSubMerchantAct (id : String)
  | setDateRangeAct (startDate endDate : String)
  | setTransactionTypeAct (t : String)
  | setSearchTermAct (t : String)
  | setPerPageAct (p : String)
  | clearFiltersAct

/-- One transition of the filter-hook state. -/
def filterStep (s : FilterHookState) : FilterEvent → FilterHookState
  | .partnerBanksStart => (fetchPartnerBanksStart s).1
  | .partnerBanksSucceed banks => fetchPartnerBanksSucceed banks s
  | .partnerBanksFail e => fetchPartnerBanksFail e s
  | .merchantsSucceed merchants => fetchMerchantsSucceed merchants s
  | .merchantsFail e => fetchMerchantsFail e s
  | .subMerchantsSucceed subMerchants => fetchSubMerchantsSucceed subMerchants s
  | .subMerchantsFail e => fetchSubMerchantsFail e s
  | .setPartnerBankAct id => (setPartnerBank id s).1
  | .setMerchantAct id => (setMerchant id s).1
  | .setSubMerchantAct id => setSubMerchant id s
  | .setDateRangeAct a b => setDateRange a b s
  | .setTransactionTypeAct t => setTransactionType t s
  | .setSearchTermAct t => setSearchTerm t s
  | .setPerPageAct p => setPerPage p s
  | .clearFiltersAct => (clearFilters s).1

/-! ## API client response-error interceptor -/

/-- Browser-visible state touched by the interceptor: the two storage tiers
(association lists of key/value pairs) and the current location. -/
structure BrowserEnv where
  hasWindow : Bool
  localStore : List (String × String)
  sessionStore : List (String × String)
  locationHref : String
deriving DecidableEq, Repr

/-- `storage.getItem(key)`. -/
def getItem (store : List (String × String)) (key : String) : Option String :=
  (store.find? (fun p => p.1 == key)).map Prod.snd

/-- `storage.removeItem(key)`. -/
def removeItem (store : List (String × String)) (key : String) :
    List (String × String) :=
  store.filter (fun p => p.1 != key)

/-- `handleUnauthorized()`: when a window exists, drop `auth_token` from both
storage tiers and navigate to `/login`. -/
def handleUnauthorized (env : BrowserEnv) : BrowserEnv :=
  if env.hasWindow then
    { env with localStore := removeItem env.localStore "auth_token",
               sessionStore := removeItem env.sessionStore "auth_token",
               locationHref := "/login" }
  else env

/-- The error object the interceptor receives (`error.response?.status`
is `none` when no response exists). -/
structure AxiosError where
  responseStatus : Option Int
  message : String
  name : String
deriving DecidableEq, Repr

/-- `s.includes(pat)` for a non-empty pattern. -/
def strIncludes (s pat : String) : Bool :=
  (s.splitOn pat).length != 1

/-- The response error interceptor: 401 handling, JSON-error relabelling,
and `Promise.reject(error)` — the returned error is always rejected to the
caller. -/
def respErrorInterceptor (error : AxiosError) (env : BrowserEnv) :
    BrowserEnv × AxiosError :=
  let env1 := if error.responseStatus = some 401 then handleUnauthorized env else env
  let error1 :=
    if strIncludes error.message "JSON" || error.name == "SyntaxError" then
      { error with message := "Server returned invalid JSON data. Please try again." }
    else error
  (env1, error1)

/-! ## Spec-side view of the normalization policy (priority rule list)

The specification describes normalization as an ordered list of five shape
rules, first match winning. The definitions below state that rule list
directly from the spec's words, to be compared with `extractFromData`. -/

/-- The five envelope shapes of the normalization policy. -/
inductive ShapeRule where
  | nestedData
  | itemsArray
  | selfArray
  | transactionsArray
  | fallbackScan
deriving DecidableEq, Repr

/-- Whether a rule's condition holds on the payload. -/
def ruleMatches (rd : JsValue) : ShapeRule → Bool
  | .nestedData => hasArrayProp rd "data"
  | .itemsArray => hasArrayProp rd "items"
  | .selfArray => rd.isArray
  | .transactionsArray => hasArrayProp rd "transactions"
  | .fallbackScan => !(rd.objValues.filter JsValue.isArray).isEmpty

/-- The transactions array a rule extracts when its condition holds. -/
def ruleExtract (rd : JsValue) : ShapeRule → List JsValue
  | .nestedData => (jsOr (rd.getProp "data") .null).arrayElems
  | .itemsArray => (jsOr (rd.getProp "items") .null).arrayElems
  | .selfArray => rd.arrayElems
  | .transactionsArray => (jsOr (rd.getProp "transactions") .null).arrayElems
  | .fallbackScan =>
    match (rd.objValues.filter JsValue.isArray).head? with
    | some firstArr => firstArr.arrayElems
    | none => []

/-- The fixed priority order of the five rules. -/
def shapePriority : List ShapeRule :=
  [.nestedData, .itemsArray, .selfArray, .transactionsArray, .fallbackScan]

/-- Spec-side extraction: apply the first rule in priority order whose
condition holds; yield `[]` when none matches. -/
def firstMatchExtract (rd : JsValue) : List JsValue :=
  match shapePriority.find? (ruleMatches rd) with
  | some r => ruleExtract rd r
  | none => []

/-- No shape rule finds an array in the payload. -/
def noShapeMatches (rd : JsValue) : Bool :=
  !hasArrayProp rd "data" && !hasArrayProp rd "items" && !rd.isArray &&
    !hasArrayProp rd "transactions" && (rd.objValues.filter JsValue.isArray).isEmpty

/-- The implicit invariant of the filter hook: every option list starts
with the "All" sentinel. -/
def sentinelHeaded (s : FilterHookState) : Prop :=
  s.filterData.partnerBanks.head? = some createInitialOption ∧
  s.filterData.merchants.head? = some createInitialOption ∧
  s.filterData.subMerchants.head? = some createInitialOption

/-! ## Concrete payloads used at concrete inputs -/

/-- A shape-(a) payload with all pagination fields present whose `lastPage`
is the falsy number `0`. -/
def rspLastPageZero : JsValue :=
  .obj [("success", .bool true),
        ("data", .obj [("data", .arr []), ("currentPage", .num 1),
          ("perPage", .num 10), ("total", .num 0), ("lastPage", .num 0)])]

/-- A shape-(a) payload with the truthy `lastPage = 7`. -/
def rspLastPageSeven : JsValue :=
  .obj [("success", .bool true),
        ("data", .obj [("data", .arr []), ("lastPage", .num 7)])]

/-- The inner payload of `rspLastPageSeven`. -/
def rdLastPageSeven : JsValue :=
  .obj [("data", .arr []), ("lastPage", .num 7)]

/-- A successful envelope whose payload object holds no array anywhere. -/
def rspNoArray : JsValue :=
  .obj [("success", .bool true), ("data", .obj [("foo", .num 5)])]

/-- A 401 error as axios surfaces it. -/
def error401 : AxiosError :=
  { responseStatus := some 401,
    message := "Request failed with status code 401",
    name := "AxiosError" }

/-- A browser environment holding a token in both storage tiers. -/
def envWithToken : BrowserEnv :=
  { hasWindow := true,
    localStore := [("auth_token", "tok")],
    sessionStore := [("auth_token", "tok")],
    locationHref := "/dashboard" }

/-! ## Helper lemmas -/

/-- A value with a defined property is an object, hence truthy. -/
theorem truthy_of_getProp_eq_some {v : JsValue} {k : String} {w : JsValue}
    (h : v.getProp k = some w) : v.truthy = true := by
  cases v <;> simp [JsValue.getProp, JsValue.truthy] at h ⊢

/-- Reading back the slot a category setter wrote. -/
theorem getCategoryState_getCategorySetter (c : TransactionCategory)
    (f : CatState → CatState) (s : HookState) :
    getCategoryState c (getCategorySetter c f s) = f (getCategoryState c s) := by
  cases c <;> rfl

/-- Every completion path of `fetchTransactions` clears the loading flag. -/
theorem fetchComplete_loading (outcome : FetchOutcome) (cs : CatState) :
    (fetchComplete outcome cs).loading = false := by
  cases outcome with
  | resolved r =>
    simp only [fetchComplete]
    split <;> rfl
  | thrown e => rfl

/-- `v || d` keeps a truthy defined left operand. -/
theorem jsOr_of_truthy {v : JsValue} (h : v.truthy = true) (d : JsValue) :
    jsOr (some v) d = v := by
  simp [jsOr, h]

/-- `undefined || d` falls through to the default. -/
theorem jsOr_none (d : JsValue) : jsOr none d = d := rfl

/-- Shape case 1 of the normalization block, selected by its condition. -/
theorem extractFromData_case1 {rd : JsValue} (h : hasArrayProp rd "data" = true) :
    extractFromData rd =
      { transactions := (jsOr (rd.getProp "data") .null).arrayElems,
        metaVar := some (.obj
          [("page", jsOr (rd.getProp "currentPage") (.num 1)),
           ("perPage", jsOr (rd.getProp "perPage") (.num 10)),
           ("total", jsOr (rd.getProp "total") (.num 0)),
           ("totalPages", jsOr (rd.getProp "lastPage") (.num 1))]) } := by
  simp [extractFromData, h]

/-- Shape case 5 of the normalization block, reached when cases 1-4 fail. -/
theorem extractFromData_fallback {rd : JsValue}
    (h1 : hasArrayProp rd "data" = false) (h2 : hasArrayProp rd "items" = false)
    (h3 : rd.isArray = false) (h4 : hasArrayProp rd "transactions" = false) :
    extractFromData rd =
      (match (rd.objValues.filter JsValue.isArray).head? with
       | some firstArr => { transactions := firstArr.arrayElems, metaVar := none }
       | none => { transactions := [], metaVar := none }) := by
  simp [extractFromData, h1, h2, h3, h4]

/-- A removed key can no longer be read from a storage tier. -/
theorem getItem_removeItem (store : List (String × String)) (key : String) :
    getItem (removeItem store key) key = none := by
  have hfind : List.find? (fun p => p.1 == key) (removeItem store key) = none := by
    rw [List.find?_eq_none]
    intro x hx
    have hkept := List.of_mem_filter hx
    simpa using hkept
  simp [getItem, hfind]

/-! ## Claims -/

/-- Claim C1: for distinct categories `a` and `b`, `fetchTransactions a` —
loading phase and completion together, under every outcome — leaves
category `b`'s state record untouched. -/
theorem fetchTransactions_frame (a b : TransactionCategory)
    (params : Option QueryParams) (outcome : FetchOutcome) (s : HookState)
    (hab : a ≠ b) :
    getCategoryState b (fetchTransactions a params outcome s).1
      = getCategoryState b s := by
  cases a <;> cases b <;>
    first
      | exact absurd rfl hab
      | simp [fetchTransactions, fetchIssue, fetchResolve, getCategorySetter,
          getCategoryState]

/-- Witness for C1 at concrete input: fetching `collection` leaves the
`reversal` slot of the freshly mounted hook state unchanged. -/
theorem fetchTransactions_frame_witness :
    TransactionCategory.collection ≠ TransactionCategory.reversal ∧
    getCategoryState .reversal
        (fetchTransactions .collection none (.thrown .nonError) initialHookState).1
      = getCategoryState .reversal initialHookState :=
  ⟨by decide,
   fetchTransactions_frame .collection .reversal none (.thrown .nonError)
     initialHookState (by decide)⟩

/-- Counterexample to claim C2 at concrete input: switching the current
category from `collection` to `reversal` does issue a service call (the
hook's `useEffect` on `currentCategory` re-runs `fetchTransactions`). -/
theorem setCurrentCategory_issues_call_cx :
    (setCurrentCategoryStep .reversal initialHookState).2 =
      [{ transactionType := .reversal, page := some 1, perPage := some 10 }] ∧
    (setCurrentCategoryStep .reversal initialHookState).2 ≠ [] := by
  decide

/-- Claim C2 (amended): a `setCurrentCategory c` step issues no service call
when `c` is already the current category, but when `c` differs the hook's
category-change effect issues exactly one call fetching the new category
with default params (page 1, perPage 10); the pointer itself is updated. -/
theorem setCurrentCategory_fetch_effect (c : TransactionCategory) (s : HookState) :
    (setCurrentCategoryStep c s).1.currentCategory = c ∧
    (setCurrentCategoryStep c s).2 =
      (if c = s.currentCategory then []
       else [{ transactionType := TRANSACTION_CATEGORIES c,
               page := some 1, perPage := some 10 }]) := by
  by_cases h : c = s.currentCategory <;>
    cases c <;>
      simp_all [setCurrentCategoryStep, fetchIssue, mkServiceCall,
        getCategorySetter]

/-- Claim C9: every outcome of a `fetchTransactions` run ends with that
category's loading flag false; a thrown `Error` sets the category's error
to the exception's message while data and meta keep their prior values. -/
theorem fetch_loading_cleared_error_scoped :
    (∀ (c : TransactionCategory) (params : Option QueryParams)
       (outcome : FetchOutcome) (s : HookState),
       (getCategoryState c (fetchTransactions c params outcome s).1).loading
         = false) ∧
    (∀ (c : TransactionCategory) (params : Option QueryParams)
       (m : String) (s : HookState),
       (getCategoryState c
          (fetchTransactions c params (.thrown (.jsError m)) s).1).error
           = some m ∧
       (getCategoryState c
          (fetchTransactions c params (.thrown (.jsError m)) s).1).data
           = (getCategoryState c s).data ∧
       (getCategoryState c
          (fetchTransactions c params (.thrown (.jsError m)) s).1).meta
           = (getCategoryState c s).meta) := by
  constructor
  · intro c params outcome s
    simp [fetchTransactions, fetchIssue, fetchResolve,
      getCategoryState_getCategorySetter, fetchComplete_loading]
  · intro c params m s
    simp [fetchTransactions, fetchIssue, fetchResolve,
      getCategoryState_getCategorySetter, fetchComplete, fetchStart,
      errorMessageOf]

/-- Counterexample to claim C3 at concrete input: with `lastPage = 0` the
stored `meta.totalPages` is `1` (`lastPage || 1`), not the server's `0`. -/
theorem totalPages_lastPage_cx :
    ((fetchComplete (.resolved rspLastPageZero) initialState).meta.bind
        (fun m => m.getProp "totalPages")) = some (.num 1) ∧
    ((rspLastPageZero.getProp "data").bind
        (fun d => d.getProp "lastPage")) = some (.num 0) ∧
    ((fetchComplete (.resolved rspLastPageZero) initialState).meta.bind
        (fun m => m.getProp "totalPages")) ≠
      ((rspLastPageZero.getProp "data").bind
        (fun d => d.getProp "lastPage")) := by
  refine ⟨rfl, rfl, ?_⟩
  have e1 : ((fetchComplete (.resolved rspLastPageZero) initialState).meta.bind
      (fun m => m.getProp "totalPages")) = some (JsValue.num 1) := rfl
  have e2 : ((rspLastPageZero.getProp "data").bind
      (fun d => d.getProp "lastPage")) = some (JsValue.num 0) := rfl
  rw [e1, e2]
  simp

/-- Claim C3 (amended): for a successful shape-(a) response the stored
`meta.totalPages` is `lastPage || 1` — equal to the server's `lastPage`
whenever that value is truthy, and `1` when `lastPage` is absent or falsy
(such as `0`). -/
theorem case1_totalPages_is_lastPage_or_one (response rd : JsValue)
    (xs : List JsValue) (cs : CatState)
    (hrd : response.getProp "data" = some rd)
    (hsucc : isSuccessEnvelope response = true)
    (hshape : rd.getProp "data" = some (.arr xs)) :
    (fetchComplete (.resolved response) cs).meta.bind
        (fun m => m.getProp "totalPages")
      = some (jsOr (rd.getProp "lastPage") (.num 1)) := by
  have htr : rd.truthy = true := truthy_of_getProp_eq_some hshape
  have harr : hasArrayProp rd "data" = true := by
    simp [hasArrayProp, hshape, optTruthy, JsValue.truthy, JsValue.isArray]
  simp only [fetchComplete]
  rw [hrd, hsucc]
  simp only [optTruthy, htr, Bool.and_self, eq_self_iff_true, if_true]
  rw [jsOr_of_truthy htr, extractFromData_case1 harr]
  simp only [jsOr_of_truthy (show (JsValue.obj
    [("page", jsOr (rd.getProp "currentPage") (.num 1)),
     ("perPage", jsOr (rd.getProp "perPage") (.num 10)),
     ("total", jsOr (rd.getProp "total") (.num 0)),
     ("totalPages", jsOr (rd.getProp "lastPage") (.num 1))]).truthy = true
    from rfl)]
  simp [JsValue.getProp, List.find?]

/-- Witness for the amended C3 at concrete input `lastPage = 7`. -/
theorem case1_totalPages_witness :
    rspLastPageSeven.getProp "data" = some rdLastPageSeven ∧
    isSuccessEnvelope rspLastPageSeven = true ∧
    rdLastPageSeven.getProp "data" = some (.arr []) ∧
    (fetchComplete (.resolved rspLastPageSeven) initialState).meta.bind
        (fun m => m.getProp "totalPages")
      = some (jsOr (rdLastPageSeven.getProp "lastPage") (.num 1)) :=
  ⟨rfl, rfl, rfl,
   case1_totalPages_is_lastPage_or_one rspLastPageSeven rdLastPageSeven []
     initialState rfl rfl rfl⟩

/-- Counterexample to claim C4 at concrete input: when no rule finds an
array, the stored default meta has `totalPages = Math.ceil(0 / 10) = 0`,
not the `1` the claim states (data is indeed `[]`). -/
theorem noArray_default_meta_cx :
    (fetchComplete (.resolved rspNoArray) initialState).data = [] ∧
    ((fetchComplete (.resolved rspNoArray) initialState).meta.bind
        (fun m => m.getProp "totalPages")) = some (.num 0) ∧
    ((fetchComplete (.resolved rspNoArray) initialState).meta.bind
        (fun m => m.getProp "totalPages")) ≠ some (.num 1) := by
  refine ⟨rfl, ?_, ?_⟩
  · rfl
  · have e1 : ((fetchComplete (.resolved rspNoArray) initialState).meta.bind
        (fun m => m.getProp "totalPages")) = some (JsValue.num 0) := rfl
    rw [e1]
    simp

/-- Claim C4 (amended): for a successful envelope whose truthy payload
matches no shape rule, the category state becomes `data = []` with default
meta `{page: 1, perPage: 10, total: 0, totalPages: 0}` (the code computes
`totalPages` as `Math.ceil(0 / 10) = 0`), loading cleared and no error —
the run completes without throwing. -/
theorem noArray_yields_empty_data (response rd : JsValue) (cs : CatState)
    (hrd : response.getProp "data" = some rd)
    (hsucc : isSuccessEnvelope response = true)
    (htr : rd.truthy = true)
    (hnone : noShapeMatches rd = true) :
    fetchComplete (.resolved response) cs =
      { data := [],
        meta := some (.obj [("page", .num 1), ("perPage", .num 10),
          ("total", .num 0), ("totalPages", .num 0)]),
        loading := false,
        error := none } := by
  simp only [noShapeMatches, Bool.and_eq_true, Bool.not_eq_true'] at hnone
  obtain ⟨⟨⟨⟨h1, h2⟩, h3⟩, h4⟩, h5⟩ := hnone
  have hhead : (rd.objValues.filter JsValue.isArray).head? = none := by
    cases hfe : rd.objValues.filter JsValue.isArray with
    | nil => rfl
    | cons a l => rw [hfe] at h5; simp [List.isEmpty] at h5
  simp only [fetchComplete]
  rw [hrd, hsucc]
  simp only [optTruthy, htr, Bool.and_self, eq_self_iff_true, if_true]
  rw [jsOr_of_truthy htr, extractFromData_fallback h1 h2 h3 h4, hhead]
  simp [jsOr_none, defaultMeta, ceilDiv10]

/-- Witness for the amended C4 at the concrete payload `{foo: 5}`. -/
theorem noArray_yields_empty_data_witness :
    rspNoArray.getProp "data" = some (.obj [("foo", .num 5)]) ∧
    isSuccessEnvelope rspNoArray = true ∧
    (JsValue.obj [("foo", .num 5)]).truthy = true ∧
    noShapeMatches (.obj [("foo", .num 5)]) = true ∧
    fetchComplete (.resolved rspNoArray) initialState =
      { data := [],
        meta := some (.obj [("page", .num 1), ("perPage", .num 10),
          ("total", .num 0), ("totalPages", .num 0)]),
        loading := false,
        error := none } :=
  ⟨rfl, rfl, rfl, rfl,
   noArray_yields_empty_data rspNoArray (.obj [("foo", .num 5)]) initialState
     rfl rfl rfl rfl⟩

/-- Claim C5: the normalization block extracts the transactions array by
testing the five shape rules in the fixed priority order
nested-data, items, self-array, transactions, fallback-scan — first match
wins, and a later rule applies only when every earlier condition fails. -/
theorem extract_follows_priority (rd : JsValue) :
    (extractFromData rd).transactions = firstMatchExtract rd := by
  by_cases h1 : hasArrayProp rd "data" = true
  · simp [extractFromData, firstMatchExtract, shapePriority, List.find?,
      ruleMatches, ruleExtract, h1]
  by_cases h2 : hasArrayProp rd "items" = true
  · simp [extractFromData, firstMatchExtract, shapePriority, List.find?,
      ruleMatches, ruleExtract, h1, h2]
  by_cases h3 : rd.isArray = true
  · simp [extractFromData, firstMatchExtract, shapePriority, List.find?,
      ruleMatches, ruleExtract, h1, h2, h3]
  by_cases h4 : hasArrayProp rd "transactions" = true
  · simp [extractFromData, firstMatchExtract, shapePriority, List.find?,
      ruleMatches, ruleExtract, h1, h2, h3, h4]
  simp only [Bool.not_eq_true] at h1 h2 h3 h4
  rw [extractFromData_fallback h1 h2 h3 h4]
  simp only [firstMatchExtract, shapePriority, List.find?, ruleMatches,
    h1, h2, h3, h4]
  cases hfe : rd.objValues.filter JsValue.isArray with
  | nil => simp [hfe, ruleExtract, List.isEmpty]
  | cons a l => simp [hfe, ruleExtract, List.isEmpty]

/-- Claim C6: `setPartnerBank id` writes the id, forces the two dependent
filter values back to `"all"`, resets both dependent option lists to the
single sentinel, and issues exactly one merchant-options fetch scoped to
`id` unless `id = "all"`, in which case no call is issued. -/
theorem setPartnerBank_cascade (id : String) (s : FilterHookState) :
    (setPartnerBank id s).1.filters.partnerBankId = id ∧
    (setPartnerBank id s).1.filters.merchantId = "all" ∧
    (setPartnerBank id s).1.filters.subMerchantId = "all" ∧
    (setPartnerBank id s).1.filterData.merchants = [createInitialOption] ∧
    (setPartnerBank id s).1.filterData.subMerchants = [createInitialOption] ∧
    (setPartnerBank id s).2
      = (if id = "all" then [] else [.getMerchantsByPartnerBank id]) := by
  by_cases h : id = "all" <;>
    simp [setPartnerBank, fetchMerchantsByPartnerBankStart, h]

/-- Claim C7: `clearFilters` restores every filter field to its default,
resets the two dependent option lists to the single sentinel, and leaves
the partner-bank option list unchanged without issuing any call. -/
theorem clearFilters_resets_defaults (s : FilterHookState) :
    (clearFilters s).1.filters.partnerBankId = "all" ∧
    (clearFilters s).1.filters.merchantId = "all" ∧
    (clearFilters s).1.filters.subMerchantId = "all" ∧
    (clearFilters s).1.filters.startDate = "" ∧
    (clearFilters s).1.filters.endDate = "" ∧
    (clearFilters s).1.filters.transactionType = "all" ∧
    (clearFilters s).1.filters.searchTerm = "" ∧
    (clearFilters s).1.filters.perPage = "10" ∧
    (clearFilters s).1.filterData.merchants = [createInitialOption] ∧
    (clearFilters s).1.filterData.subMerchants = [createInitialOption] ∧
    (clearFilters s).1.filterData.partnerBanks = s.filterData.partnerBanks ∧
    (clearFilters s).2 = [] := by
  simp [clearFilters, initialFilters]

/-- Claim C8: a 401 response, handled in a window context, removes
`auth_token` from both storage tiers, navigates to `/login`, and the error
(status intact) is still rejected to the caller. -/
theorem unauthorized_clears_session_and_redirects (error : AxiosError)
    (env : BrowserEnv) (h401 : error.responseStatus = some 401)
    (hwin : env.hasWindow = true) :
    getItem (respErrorInterceptor error env).1.localStore "auth_token" = none ∧
    getItem (respErrorInterceptor error env).1.sessionStore "auth_token" = none ∧
    (respErrorInterceptor error env).1.locationHref = "/login" ∧
    (respErrorInterceptor error env).2.responseStatus = error.responseStatus := by
  refine ⟨?_, ?_, ?_, ?_⟩
  · simp [respErrorInterceptor, handleUnauthorized, h401, hwin, getItem_removeItem]
  · simp [respErrorInterceptor, handleUnauthorized, h401, hwin, getItem_removeItem]
  · simp [respErrorInterceptor, handleUnauthorized, h401, hwin]
  · simp only [respErrorInterceptor]
    split <;> rfl

/-- Witness for C8 at a concrete 401 error and token-holding environment. -/
theorem unauthorized_clears_session_witness :
    error401.responseStatus = some 401 ∧
    envWithToken.hasWindow = true ∧
    (getItem (respErrorInterceptor error401 envWithToken).1.localStore
        "auth_token" = none ∧
     getItem (respErrorInterceptor error401 envWithToken).1.sessionStore
        "auth_token" = none ∧
     (respErrorInterceptor error401 envWithToken).1.locationHref = "/login" ∧
     (respErrorInterceptor error401 envWithToken).2.responseStatus
        = error401.responseStatus) :=
  ⟨rfl, rfl,
   unauthorized_clears_session_and_redirects error401 envWithToken rfl rfl⟩

/-- Every filter-hook transition preserves the sentinel-headed invariant. -/
theorem filterStep_preserves_sentinelHeaded (s : FilterHookState)
    (e : FilterEvent) (h : sentinelHeaded s) : sentinelHeaded (filterStep s e) := by
  obtain ⟨hp, hm, hs2⟩ := h
  cases e
  case setPartnerBankAct id =>
    by_cases hid : id = "all" <;>
      simp_all [filterStep, sentinelHeaded, setPartnerBank,
        fetchMerchantsByPartnerBankStart, createInitialOption]
  case setMerchantAct id =>
    by_cases hid : id = "all" <;>
      simp_all [filterStep, sentinelHeaded, setMerchant,
        fetchSubMerchantsByMerchantStart, createInitialOption]
  all_goals
    simp_all [filterStep, sentinelHeaded, fetchPartnerBanksStart,
      fetchPartnerBanksSucceed, fetchPartnerBanksFail, fetchMerchantsSucceed,
      fetchMerchantsFail, fetchSubMerchantsSucceed, fetchSubMerchantsFail,
      setSubMerchant, setDateRange, setTransactionType, setSearchTerm,
      setPerPage, clearFilters, convertPartnerBanksToOptions,
      convertMerchantsToOptions, convertSubMerchantsToOptions,
      createInitialOption]

/-- The invariant holds along every event sequence from an invariant state. -/
theorem sentinelHeaded_foldl (events : List FilterEvent) (s : FilterHookState)
    (h : sentinelHeaded s) : sentinelHeaded (events.foldl filterStep s) := by
  induction events generalizing s with
  | nil => exact h
  | cons e rest ih => exact ih _ (filterStep_preserves_sentinelHeaded s e h)

/-- Claim C10: after every sequence of operations each option list is
non-empty with the sentinel first, and a failed merchant-options or
sub-merchant-options fetch resets the corresponding list to exactly the
single sentinel. -/
theorem option_lists_sentinel_invariant :
    (∀ events : List FilterEvent,
       sentinelHeaded (events.foldl filterStep initialFilterHookState)) ∧
    (∀ (s : FilterHookState) (e : ThrownValue),
       (filterStep s (.merchantsFail e)).filterData.merchants
         = [createInitialOption]) ∧
    (∀ (s : FilterHookState) (e : ThrownValue),
       (filterStep s (.subMerchantsFail e)).filterData.subMerchants
         = [createInitialOption]) :=
  ⟨fun events => sentinelHeaded_foldl events _ ⟨rfl, rfl, rfl⟩,
   fun _ _ => rfl, fun _ _ => rfl⟩
